import Mathlib

/-!
Shallow embedding of `streaming_web.py` (picamera2 MJPEG streaming server):
the `StreamingOutput` single-slot frame buffer with condition-variable
wakeup, and the `StreamingHandler` HTTP routing and multipart streaming
loop.  Machine integers do not overflow in the source (Python), so `Nat`
is used throughout; byte strings are `List Nat`.
-/

namespace Streaming

/-- Byte encoding of a string.  Every string the server emits is ASCII, so
mapping each character to its code point coincides with UTF-8 encoding. -/
def ascii (s : String) : List Nat := s.data.map Char.toNat

/-- `STREAM_WIDTH = 640` from the source. -/
def STREAM_WIDTH : Nat := 640

/-- `STREAM_HEIGHT = 480` from the source. -/
def STREAM_HEIGHT : Nat := 480

/-- `PAGE_TEMPLATE` from the source: the triple-quoted HTML page with
`\x7bwidth\x7d` and `\x7bheight\x7d` placeholders. -/
def PAGE_TEMPLATE : String :=
  "\n<html>\n<head>\n<title>picamera2 MJPEG streaming</title>\n</head>\n<body>\n<h1>Picamera2 MJPEG Streaming</h1>\n<img src=\"stream.mjpg\" width=\"\x7bwidth\x7d\" height=\"\x7bheight\x7d\" />\n</body>\n</html>\n"

/-- `PAGE_TEMPLATE.format(width=w, height=h)`: substitute both placeholders. -/
def formatPage (w h : Nat) : String :=
  (PAGE_TEMPLATE.replace "\x7bwidth\x7d" (toString w)).replace "\x7bheight\x7d" (toString h)

/-- The wire-visible state of one HTTP connection: bytes already written to
the socket (`wfile` is unbuffered in `socketserver`, `wbufsize = 0`) and the
handler's pending header buffer (`BaseHTTPRequestHandler._headers_buffer`,
filled by `send_header`, flushed by `end_headers`). -/
structure WireState where
  wfile : List Nat
  headersBuffer : List Nat
deriving Repr, DecidableEq

/-- `self.send_header(keyword, value)`: append `keyword: value\r\n` to the
header buffer (nothing reaches the socket yet). -/
def send_header (s : WireState) (keyword value : String) : WireState :=
  { s with headersBuffer := s.headersBuffer ++ ascii (keyword ++ ": " ++ value ++ "\r\n") }

/-- `self.end_headers()`: flush the buffered headers followed by a blank
line `\r\n` to the socket and clear the buffer. -/
def end_headers (s : WireState) : WireState :=
  { wfile := s.wfile ++ s.headersBuffer ++ ascii "\r\n", headersBuffer := [] }

/-- `self.wfile.write(bs)`: write raw bytes straight to the socket. -/
def wfile_write (s : WireState) (bs : List Nat) : WireState :=
  { s with wfile := s.wfile ++ bs }

/-- One successful iteration of the frame loop in
`StreamingHandler.stream_video_frames` (source lines 115-120), for a frame
that is present: write the boundary, buffer the two part headers, flush
them, then write the frame bytes and the trailing CRLF. -/
def writeFramePart (s : WireState) (frame : List Nat) : WireState :=
  let s1 := wfile_write s (ascii "--FRAME\r\n")
  let s2 := send_header s1 "Content-Type" "image/jpeg"
  let s3 := send_header s2 "Content-Length" (toString frame.length)
  let s4 := end_headers s3
  let s5 := wfile_write s4 frame
  wfile_write s5 (ascii "\r\n")

theorem ascii_append (a b : String) : ascii (a ++ b) = ascii a ++ ascii b := by
  simp [ascii, String.data_append]

/-- C1: each streamed part is exactly the boundary `--FRAME\r\n`, then
`Content-Type: image/jpeg\r\n`, then `Content-Length: <n>\r\n` where `n` is
the exact byte length of the frame, then a blank line, then the `n` frame
bytes, then a trailing `\r\n`, in that order. -/
theorem framePart_bytes (s : WireState) (frame : List Nat)
    (h : s.headersBuffer = []) :
    writeFramePart s frame =
      { wfile := s.wfile ++ ascii "--FRAME\r\n"
          ++ ascii "Content-Type: image/jpeg\r\n"
          ++ ascii ("Content-Length: " ++ toString frame.length ++ "\r\n")
          ++ ascii "\r\n" ++ frame ++ ascii "\r\n",
        headersBuffer := [] } := by
  simp [writeFramePart, wfile_write, send_header, end_headers, h, ascii_append,
    List.append_assoc]

/-- C1 witness: the part written for the concrete 3-byte frame `[65, 66, 67]`
on a fresh connection state. -/
theorem framePart_bytes_witness :
    (WireState.mk [] []).headersBuffer = [] ∧
    writeFramePart ⟨[], []⟩ [65, 66, 67] =
      { wfile := [] ++ ascii "--FRAME\r\n"
          ++ ascii "Content-Type: image/jpeg\r\n"
          ++ ascii ("Content-Length: " ++ toString ([65, 66, 67] : List Nat).length ++ "\r\n")
          ++ ascii "\r\n" ++ [65, 66, 67] ++ ascii "\r\n",
        headersBuffer := [] } :=
  ⟨rfl, framePart_bytes ⟨[], []⟩ [65, 66, 67] rfl⟩

/-- The observable outcome of `StreamingHandler.do_GET` for one request. -/
inductive Response where
  | redirect (code : Nat) (location : String)
  | page (code : Nat) (contentType : String) (contentLength : Nat) (body : List Nat)
  | mjpegStream
  | httpError (code : Nat)
deriving Repr, DecidableEq

/-- `StreamingHandler.handle_index_page`: render `PAGE_TEMPLATE` with the
stream width and height, UTF-8 encode it, and respond 200 with
`Content-Type: text/html` and `Content-Length = len(content)`, then write
the encoded content as the body. -/
def handle_index_page : Response :=
  let content := ascii (formatPage STREAM_WIDTH STREAM_HEIGHT)
  Response.page 200 "text/html" content.length content

/-- `StreamingHandler.do_GET`: dispatch on `self.path` by exact string
comparison (source lines 67-76). -/
def do_GET (path : String) : Response :=
  if path = "/" then Response.redirect 301 "/index.html"
  else if path = "/index.html" then handle_index_page
  else if path = "/stream.mjpg" then Response.mjpegStream
  else Response.httpError 404

/-- C6: `GET /` gives a 301 redirect to `/index.html`; `GET /index.html`
gives a 200 `text/html` response whose `Content-Length` equals the byte
length of the body written; `GET /stream.mjpg` starts the MJPEG stream;
every other path gives a 404. -/
theorem do_GET_routing :
    do_GET "/" = Response.redirect 301 "/index.html" ∧
    (∃ body : List Nat,
      do_GET "/index.html" = Response.page 200 "text/html" body.length body) ∧
    do_GET "/stream.mjpg" = Response.mjpegStream ∧
    ∀ p : String, p ≠ "/" → p ≠ "/index.html" → p ≠ "/stream.mjpg" →
      do_GET p = Response.httpError 404 := by
  refine ⟨rfl, ⟨ascii (formatPage STREAM_WIDTH STREAM_HEIGHT), rfl⟩, rfl, ?_⟩
  intro p h1 h2 h3
  simp [do_GET, h1, h2, h3]

/-- C6 witness: the universally quantified 404 clause at the concrete
path `/nope`. -/
theorem do_GET_routing_witness : do_GET "/nope" = Response.httpError 404 :=
  do_GET_routing.2.2.2 "/nope" (by decide) (by decide) (by decide)

/-- C9: dispatch is on exact string equality of the raw path, so variants
such as `/stream.mjpg?x=1`, `/index.html/` and `/STREAM.MJPG` all get 404;
query strings are not stripped or parsed. -/
theorem do_GET_exact_match (p : String)
    (h1 : p ≠ "/") (h2 : p ≠ "/index.html") (h3 : p ≠ "/stream.mjpg") :
    do_GET p = Response.httpError 404 ∧
    do_GET "/stream.mjpg?x=1" = Response.httpError 404 ∧
    do_GET "/index.html/" = Response.httpError 404 ∧
    do_GET "/STREAM.MJPG" = Response.httpError 404 := by
  refine ⟨?_, by decide, by decide, by decide⟩
  simp [do_GET, h1, h2, h3]

/-- C9 witness: the theorem applied at the concrete path
`/stream.mjpg?x=1`. -/
theorem do_GET_exact_match_witness :
    do_GET "/stream.mjpg?x=1" = Response.httpError 404 :=
  (do_GET_exact_match "/stream.mjpg?x=1" (by decide) (by decide) (by decide)).1

/-- One explicit call the handler makes while emitting a response head. -/
inductive HandlerAction where
  | sendResponse (code : Nat)
  | sendHeader (keyword value : String)
  | endHeadersAct
  | streamFrames
deriving Repr, DecidableEq

/-- `StreamingHandler.send_no_cache_headers`: the three cache-prevention
headers, in source order (the `Age` value `0` is rendered as the string
`"0"` on the wire). -/
def send_no_cache_headers : List HandlerAction :=
  [HandlerAction.sendHeader "Age" "0",
   HandlerAction.sendHeader "Cache-Control" "no-cache, private",
   HandlerAction.sendHeader "Pragma" "no-cache"]

/-- `StreamingHandler.handle_mjpeg_stream`: status 200, the no-cache
headers, the multipart content type, end of headers, then the frame loop
(source lines 93-99). -/
def handle_mjpeg_stream : List HandlerAction :=
  [HandlerAction.sendResponse 200] ++ send_no_cache_headers ++
  [HandlerAction.sendHeader "Content-Type" "multipart/x-mixed-replace; boundary=FRAME",
   HandlerAction.endHeadersAct,
   HandlerAction.streamFrames]

/-- C7: on stream start the handler emits exactly status 200, then
`Age: 0`, `Cache-Control: no-cache, private`, `Pragma: no-cache`,
`Content-Type: multipart/x-mixed-replace; boundary=FRAME`, then ends the
headers, and only then enters the frame loop. -/
theorem mjpeg_stream_headers :
    handle_mjpeg_stream =
      [HandlerAction.sendResponse 200,
       HandlerAction.sendHeader "Age" "0",
       HandlerAction.sendHeader "Cache-Control" "no-cache, private",
       HandlerAction.sendHeader "Pragma" "no-cache",
       HandlerAction.sendHeader "Content-Type" "multipart/x-mixed-replace; boundary=FRAME",
       HandlerAction.endHeadersAct,
       HandlerAction.streamFrames] := by
  decide

/-- The shared state of the single `StreamingOutput` instance.  `frame` is
the `self.frame` slot (initially `None`); `waiters` models the set of
thread ids currently blocked in `self.condition.wait()`; `published` is a
ghost variable recording the history of buffers passed to `write`, so that
`published.length` is the number of publishes so far (the "sequence
number" of the current frame).  The source keeps only `frame`; the other
two fields record the condition variable and the event history and never
influence the value stored in `frame`. -/
structure OutputState where
  frame : Option (List Nat)
  waiters : List Nat
  published : List (List Nat)
deriving Repr, DecidableEq

/-- `StreamingOutput.__init__`: `self.frame = None`, nobody waiting, no
publish has happened. -/
def StreamingOutput.init : OutputState :=
  { frame := none, waiters := [], published := [] }

/-- The sequence number of an output state: how many publishes have
occurred. -/
def OutputState.seq (s : OutputState) : Nat := s.published.length

/-- `StreamingOutput.write(buf)`: under `with self.condition`, store the
new buffer in `self.frame` and `notify_all()`.  Returns the new state and
the list of threads woken (all previous waiters); the waiter set becomes
empty because `notify_all` releases every blocked thread. -/
def StreamingOutput.write (s : OutputState) (buf : List Nat) :
    OutputState × List Nat :=
  ({ frame := some buf, waiters := [], published := s.published ++ [buf] },
   s.waiters)

/-- A subscriber thread entering `self.condition.wait()`:
it joins the waiter set; the shared frame slot is untouched. -/
def StreamingOutput.enterWait (s : OutputState) (tid : Nat) : OutputState :=
  { s with waiters := s.waiters ++ [tid] }

/-- States of the shared output reachable from `__init__` by publishes and
by subscribers starting to wait. -/
inductive Reachable : OutputState → Prop
  | init : Reachable StreamingOutput.init
  | write (s : OutputState) (buf : List Nat) :
      Reachable s → Reachable (StreamingOutput.write s buf).1
  | enterWait (s : OutputState) (tid : Nat) :
      Reachable s → Reachable (StreamingOutput.enterWait s tid)

theorem reachable_frame_latest (s : OutputState) (hs : Reachable s) :
    s.frame = s.published.getLast? := by
  induction hs with
  | init => rfl
  | write t buf _ ih =>
      simp [StreamingOutput.write, List.getLast?_append]
  | enterWait t tid _ ih =>
      simpa [StreamingOutput.enterWait] using ih

/-- C3: `write` replaces the stored frame with the new buffer, increments
the sequence number, and wakes every thread blocked waiting (leaving the
waiter set empty); the sequence starts at 0 and never decreases under any
step; and in every reachable state with at least one publish the stored
frame is the one matching the latest sequence value. -/
theorem write_publish_contract (s : OutputState) (buf : List Nat)
    (tid : Nat) (hs : Reachable s) :
    (StreamingOutput.write s buf).1.frame = some buf ∧
    (StreamingOutput.write s buf).1.seq = s.seq + 1 ∧
    (StreamingOutput.write s buf).2 = s.waiters ∧
    (StreamingOutput.write s buf).1.waiters = [] ∧
    StreamingOutput.init.seq = 0 ∧
    s.seq ≤ (StreamingOutput.write s buf).1.seq ∧
    (StreamingOutput.enterWait s tid).seq = s.seq ∧
    (0 < s.seq → ∃ hne : s.published ≠ [],
      s.frame = some (s.published.getLast hne)) := by
  refine ⟨rfl, by simp [StreamingOutput.write, OutputState.seq], rfl, rfl, rfl,
    by simp [StreamingOutput.write, OutputState.seq],
    by simp [StreamingOutput.enterWait, OutputState.seq], ?_⟩
  intro hpos
  have hne : s.published ≠ [] := by
    intro h
    simp [OutputState.seq, h] at hpos
  refine ⟨hne, ?_⟩
  rw [reachable_frame_latest s hs, List.getLast?_eq_getLast s.published hne]

/-- C3 witness: the contract at the state reached by one publish of `[7]`
from the initial state, publishing `[9]` next, with waiter thread 5. -/
theorem write_publish_contract_witness :
    (StreamingOutput.write (StreamingOutput.write StreamingOutput.init [7]).1 [9]).1.frame
      = some [9] ∧
    (StreamingOutput.write StreamingOutput.init [7]).1.frame = some [7] := by
  have h := write_publish_contract (StreamingOutput.write StreamingOutput.init [7]).1
    [9] 5 (Reachable.write StreamingOutput.init [7] Reachable.init)
  refine ⟨h.1, ?_⟩
  obtain ⟨hne, hfr⟩ := h.2.2.2.2.2.2.2 (by decide)
  simpa using hfr

/-- C4: two publishes before the subscriber's next read leave only the
second frame: after `write f1` then `write f2` the slot holds `f2`, not
`f1` (when they differ), and the slot after a publish depends only on the
buffer just published — no backlog of earlier frames is retained. -/
theorem single_slot_overwrite (s : OutputState) (f1 f2 : List Nat)
    (hne : f1 ≠ f2) :
    (StreamingOutput.write (StreamingOutput.write s f1).1 f2).1.frame = some f2 ∧
    (StreamingOutput.write (StreamingOutput.write s f1).1 f2).1.frame ≠ some f1 ∧
    (∀ t u : OutputState, ∀ f : List Nat,
      (StreamingOutput.write t f).1.frame = (StreamingOutput.write u f).1.frame) := by
  refine ⟨rfl, ?_, fun t u f => rfl⟩
  intro h
  exact hne (by simpa [StreamingOutput.write] using h.symm)

/-- C4 witness: the overwrite at the initial state with frames `[1]`
and `[2]`. -/
theorem single_slot_overwrite_witness :
    (StreamingOutput.write (StreamingOutput.write StreamingOutput.init [1]).1 [2]).1.frame
      = some [2] :=
  (single_slot_overwrite StreamingOutput.init [1] [2] (by decide)).1

/-- The atomic operations a thread can perform on the condition variable. -/
inductive LockOp where
  | acquire
  | assignFrame
  | notifyAll
  | release
  | condWait
deriving Repr, DecidableEq

/-- The operations `StreamingOutput.write` performs, in source order:
`with self.condition:` acquires and finally releases the lock, and the body
assigns `self.frame` and calls `notify_all()`.  The list is the same for
every state — in particular it never contains a wait. -/
def writeOps : List LockOp :=
  [LockOp.acquire, LockOp.assignFrame, LockOp.notifyAll, LockOp.release]

/-- C5: publishing never blocks on consumers: `write` is a total function
whose stored frame and publish history are independent of how many
subscribers are blocked waiting (any waiter list `ws`), and its operation
sequence contains no wait on the condition variable. -/
theorem write_no_backpressure (s : OutputState) (buf : List Nat)
    (ws : List Nat) :
    (StreamingOutput.write { s with waiters := ws } buf).1.frame = some buf ∧
    (StreamingOutput.write { s with waiters := ws } buf).1.published
      = s.published ++ [buf] ∧
    (StreamingOutput.write { s with waiters := ws } buf).1.waiters = [] ∧
    LockOp.condWait ∉ writeOps := by
  exact ⟨rfl, rfl, rfl, by decide⟩

/-- Events seen by one subscriber connection: a publish by the camera
thread (a call to `StreamingOutput.write`), or the subscriber's
`output.condition.wait()` returning.  The flag records whether the return
was spurious (no notify) — Python documents that `Condition.wait` may
return without a corresponding notify. -/
inductive StreamEvent where
  | publish (buf : List Nat)
  | wakeup (spurious : Bool)
deriving Repr, DecidableEq

/-- The sequence numbers of the frames delivered by the loop in
`stream_video_frames`: the wait is a single bare `condition.wait()` with
no re-checked condition, so every time it returns the body immediately
reads `output.frame` and sends it.  `curSeq` is the number of publishes
so far; the frame read at a wakeup is the one with sequence number
`curSeq`. -/
def deliveredSeqs : Nat → List StreamEvent → List Nat
  | _, [] => []
  | curSeq, StreamEvent.publish _ :: es => deliveredSeqs (curSeq + 1) es
  | curSeq, StreamEvent.wakeup _ :: es => curSeq :: deliveredSeqs curSeq es

/-- An event trace in which every return of the bare wait is caused by a
notify: not flagged spurious, and at least one publish has happened since
the subscriber last woke (a `notify_all` only releases threads that are
already waiting, and the subscriber re-enters the wait after each
delivery).  `curSeq` is the current publish count, `lastWake` the count at
the subscriber's previous wakeup. -/
def notifiedOnly : Nat → Nat → List StreamEvent → Bool
  | _, _, [] => true
  | curSeq, lastWake, StreamEvent.publish _ :: es =>
      notifiedOnly (curSeq + 1) lastWake es
  | curSeq, lastWake, StreamEvent.wakeup sp :: es =>
      !sp && decide (lastWake < curSeq) && notifiedOnly curSeq curSeq es

theorem deliveredSeqs_mono_aux (es : List StreamEvent) :
    ∀ curSeq lastWake : Nat, notifiedOnly curSeq lastWake es = true →
      (deliveredSeqs curSeq es).Pairwise (· < ·) ∧
      ∀ x ∈ deliveredSeqs curSeq es, lastWake < x := by
  induction es with
  | nil => intro c l _; simp [deliveredSeqs]
  | cons e es ih =>
      intro c l h
      cases e with
      | publish buf =>
          simp only [notifiedOnly] at h
          simpa [deliveredSeqs] using ih (c + 1) l h
      | wakeup sp =>
          simp only [notifiedOnly, Bool.and_eq_true, decide_eq_true_eq] at h
          obtain ⟨⟨-, hlt⟩, hrest⟩ := h
          obtain ⟨hchain, hbound⟩ := ih c c hrest
          refine ⟨?_, ?_⟩
          · simpa [deliveredSeqs, List.pairwise_cons] using ⟨hbound, hchain⟩
          · intro x hx
            simp only [deliveredSeqs, List.mem_cons] at hx
            rcases hx with rfl | hx
            · exact hlt
            · exact lt_trans hlt (hbound x hx)

/-- C2 counterexample: the loop delivers `output.frame` after every return
of the bare `condition.wait()` without re-checking any condition, so in
the trace "publish one frame; the subscriber wakes by notify; the wait
then returns spuriously" the same frame (sequence number 1) is delivered
twice — the delivered sequence is `[1, 1]`, not strictly increasing. -/
theorem bare_wait_duplicate_delivery :
    deliveredSeqs 0
        [StreamEvent.publish [1], StreamEvent.wakeup false, StreamEvent.wakeup true]
      = [1, 1] ∧
    ¬ (deliveredSeqs 0
        [StreamEvent.publish [1], StreamEvent.wakeup false, StreamEvent.wakeup true]).Pairwise
        (· < ·) := by
  refine ⟨rfl, ?_⟩
  intro h
  rw [show deliveredSeqs 0
      [StreamEvent.publish [1], StreamEvent.wakeup false, StreamEvent.wakeup true]
      = [1, 1] from rfl] at h
  simp [List.pairwise_cons] at h

/-- C2 amended: the subscriber's wait is a single bare `condition.wait()`
(no re-checked condition), so under the assumption that every wakeup is a
genuine notify with at least one publish since the subscriber's previous
wakeup, the delivered sequence numbers are strictly increasing with no
repeats; a spurious wakeup can deliver the same frame twice. -/
theorem subscriber_delivery_strictly_increasing (es : List StreamEvent)
    (h : notifiedOnly 0 0 es = true) :
    (deliveredSeqs 0 es).Pairwise (· < ·) :=
  (deliveredSeqs_mono_aux es 0 0 h).1

/-- C2 witness: the amended theorem at the concrete two-publish trace
"publish, wake, publish, wake", whose delivered sequence is `[1, 2]`. -/
theorem subscriber_delivery_strictly_increasing_witness :
    (deliveredSeqs 0
        [StreamEvent.publish [1], StreamEvent.wakeup false,
         StreamEvent.publish [2], StreamEvent.wakeup false]).Pairwise (· < ·) :=
  subscriber_delivery_strictly_increasing
    [StreamEvent.publish [1], StreamEvent.wakeup false,
     StreamEvent.publish [2], StreamEvent.wakeup false] (by decide)

/-- A Python exception raised inside the frame loop, together with the
connection state at the moment it was raised (bytes already on the wire
stay written). -/
structure PyExn where
  exnName : String
  exnMsg : String
  st : WireState
deriving Repr, DecidableEq

/-- A socket write that can fail: `brokenAt = some idx` means the `idx`-th
socket write of the iteration raises (peer disconnected); otherwise the
bytes are appended to the wire. -/
def sockWrite (brokenAt : Option Nat) (idx : Nat) (s : WireState)
    (bs : List Nat) : Except PyExn WireState :=
  if brokenAt = some idx then
    Except.error ⟨"BrokenPipeError", "Broken pipe", s⟩
  else
    Except.ok (wfile_write s bs)

/-- `end_headers` performs a socket write of the buffered headers, which
can fail the same way. -/
def flushHeaders (brokenAt : Option Nat) (idx : Nat) (s : WireState) :
    Except PyExn WireState :=
  if brokenAt = some idx then
    Except.error ⟨"BrokenPipeError", "Broken pipe", s⟩
  else
    Except.ok (end_headers s)

/-- Python `len(frame)` for `frame = output.frame`: on `None` (no publish
yet) it raises `TypeError`; on bytes it returns the byte count. -/
def lenPy (frame : Option (List Nat)) (s : WireState) : Except PyExn Nat :=
  match frame with
  | none => Except.error ⟨"TypeError", "object of type NoneType has no len()", s⟩
  | some f => Except.ok f.length

/-- One iteration of the `while True` body of `stream_video_frames`
(source lines 110-120): wait has returned with `frame = output.frame`;
write the boundary, buffer the part headers (`Content-Length` computes
`len(frame)` and raises `TypeError` when the frame is `None`), flush them,
write the frame bytes, write the trailing CRLF.  The socket writes are, in
order, index 0 (boundary), 1 (header flush), 2 (frame bytes), 3 (trailing
CRLF). -/
def streamIteration (brokenAt : Option Nat) (frame : Option (List Nat))
    (s : WireState) : Except PyExn WireState := do
  let s1 ← sockWrite brokenAt 0 s (ascii "--FRAME\r\n")
  let s2 := send_header s1 "Content-Type" "image/jpeg"
  let n ← lenPy frame s2
  let s3 := send_header s2 "Content-Length" (toString n)
  let s4 ← flushHeaders brokenAt 1 s3
  let s5 ← sockWrite brokenAt 2 s4 (frame.getD [])
  sockWrite brokenAt 3 s5 (ascii "\r\n")

/-- The `try` body of `stream_video_frames` run over a finite observed
prefix of wakeups, each supplying the frame read after the wait and which
socket write (if any) fails in that iteration.  `while True` never exits
normally; `Except.ok` means the loop is still running after consuming the
observed wakeups. -/
def tryBody : List (Option (List Nat) × Option Nat) → WireState →
    Except PyExn WireState
  | [], s => Except.ok s
  | (frame, brokenAt) :: rest, s =>
      match streamIteration brokenAt frame s with
      | Except.error e => Except.error e
      | Except.ok s1 => tryBody rest s1

/-- The observable outcome of `stream_video_frames` for one connection. -/
inductive LoopOutcome where
  | streaming (s : WireState)
  | warned (logMsg : String) (s : WireState)
  | propagated (exnName exnMsg : String)
deriving Repr, DecidableEq

/-- `StreamingHandler.stream_video_frames`: the whole loop is wrapped in
`try ... except Exception as e: logging.warning('Streaming interrupted: %s',
str(e))`.  Every exception the loop body can raise is an `Exception`, so
the handler catches it, logs the warning with the cause, and returns;
`propagated` would mean an exception escaped the handler. -/
def stream_video_frames (events : List (Option (List Nat) × Option Nat))
    (s : WireState) : LoopOutcome :=
  match tryBody events s with
  | Except.ok s1 => LoopOutcome.streaming s1
  | Except.error e =>
      LoopOutcome.warned ("Streaming interrupted: " ++ e.exnMsg) e.st

/-- C8: for every trace of wakeups and write failures, the streaming loop
never lets an exception escape the connection handler, and whenever the
try body fails the outcome is exactly a warning log carrying the
underlying cause, with the loop terminated. -/
theorem stream_exceptions_contained
    (events : List (Option (List Nat) × Option Nat)) (s : WireState) :
    (∀ n m : String, stream_video_frames events s ≠ LoopOutcome.propagated n m) ∧
    (∀ e : PyExn, tryBody events s = Except.error e →
      stream_video_frames events s
        = LoopOutcome.warned ("Streaming interrupted: " ++ e.exnMsg) e.st) := by
  constructor
  · intro n m
    unfold stream_video_frames
    cases tryBody events s with
    | ok s1 => simp
    | error e => simp
  · intro e he
    unfold stream_video_frames
    rw [he]

/-- C8 witness: a connection whose very first socket write fails is torn
down with the logged warning `Streaming interrupted: Broken pipe`. -/
theorem stream_exceptions_contained_witness :
    stream_video_frames [(some [1], some 0)] ⟨[], []⟩
      = LoopOutcome.warned ("Streaming interrupted: " ++ "Broken pipe") ⟨[], []⟩ :=
  (stream_exceptions_contained [(some [1], some 0)] ⟨[], []⟩).2
    ⟨"BrokenPipeError", "Broken pipe", ⟨[], []⟩⟩ rfl

/-- C10: before any publish the stored frame is `None`; if the wait
returns in that state, `len(frame)` raises `TypeError` inside the loop,
which the handler catches: the connection ends with the logged warning
carrying the `TypeError` message, no complete part is written (only the
boundary bytes reached the socket, the part headers stayed buffered), and
nothing propagates to the server. -/
theorem none_frame_typeerror (s : WireState) (hs : s.headersBuffer = []) :
    StreamingOutput.init.frame = none ∧
    lenPy StreamingOutput.init.frame s
      = Except.error ⟨"TypeError", "object of type NoneType has no len()", s⟩ ∧
    stream_video_frames [(StreamingOutput.init.frame, none)] s
      = LoopOutcome.warned
          ("Streaming interrupted: " ++ "object of type NoneType has no len()")
          { wfile := s.wfile ++ ascii "--FRAME\r\n",
            headersBuffer := ascii "Content-Type: image/jpeg\r\n" } := by
    refine ⟨rfl, rfl, ?_⟩
    simp [stream_video_frames, tryBody, streamIteration, sockWrite, lenPy,
      StreamingOutput.init, send_header, wfile_write, hs, Bind.bind, Except.bind]

/-- C10 witness: the theorem at the fresh connection state. -/
theorem none_frame_typeerror_witness :
    stream_video_frames [(StreamingOutput.init.frame, none)] ⟨[], []⟩
      = LoopOutcome.warned
          ("Streaming interrupted: " ++ "object of type NoneType has no len()")
          { wfile := [] ++ ascii "--FRAME\r\n",
            headersBuffer := ascii "Content-Type: image/jpeg\r\n" } :=
  (none_frame_typeerror ⟨[], []⟩ rfl).2.2

end Streaming
